import Mathlib

/-
Verification of the recipes quiz bot (src/main.py) against its
natural-language specification.

Shallow embedding conventions:
- Python `dict.get(k)` on a catalog entry is modelled by optional record
  fields (`Option String`); `dict.get(k, default)` by `Option.getD`.
- Python truthiness of an optional string (`if x:`) is `pyTruthy`:
  `None` and the empty string are falsy.
- The aiogram FSM context (state + stored data) is the `Session` record;
  `state.clear()` is `Session.cleared`.
- The OpenAI chat-completions call is modelled by an oracle
  `backend : Except Unit (Option String)`: `Except.error` stands for any
  raised exception (timeout, transport error, malformed response), and
  `Except.ok content` for a response whose first choice's message content
  is `content` (possibly null).  `clientInit` models whether the module
  global `openai_client` has been initialized.
- Python `str.strip()` is `String.trim` (both drop leading and trailing
  whitespace characters).
- Outgoing `message.answer` / `message.answer_photo` calls are collected
  into a list of `Outgoing` values, in call order; the `keyboard` flag
  records `reply_markup=MAIN_KEYBOARD`.
- Logging calls are modelled (by their constant format strings) only in
  `evaluate_answer_with_model`, where a claim refers to them.
-/

namespace RecipesBot

/-- Label of the persistent action button (`TRY_NEXT_BUTTON_TEXT`). -/
def TRY_NEXT_BUTTON_TEXT : String := "Новое блюдо"

/-- Greeting sent by `start_handler`. -/
def greetingText : String := "Нажимай кнопку снизу, чтобы начать тест."

/-- Immediate acknowledgement sent at the top of `handle_answer`. -/
def checkingText : String := "Проверяю ответ..."

/-- Fallback message when the pending dish is not found (`handle_answer`). -/
def fallbackText : String :=
  "В этот раз я не смогл найти официальный рецепт, но вы можете попробовать другое блюдо."

/-- Apology returned on any backend failure (`evaluate_answer_with_model`). -/
def apologyText : String :=
  "Не удалось получить оценку от модели.\nПопробуй, пожалуйста, другое блюдо чуть позже."

/-- Message returned when the OpenAI client is not initialized. -/
def unavailableText : String :=
  "Evaluation service is temporarily unavailable. Please try another dish later."

/-- Placeholder used when a dish record has no (or an empty) recipe. -/
def recipePlaceholder : String := "Описание рецепта отсутствует."

/-- One catalog entry, as accessed by the handlers via `dict.get`.
Every field is optional: a missing key and a JSON `null` value both read
back as `None` through `dict.get`, modelled as `none`. -/
structure Dish where
  name : Option String
  recipe : Option String
  price : Option String
  weight : Option String
  image_url : Option String
deriving DecidableEq, Repr

/-- FSM phase: aiogram state `None` (idle) or `QuizStates.waiting_for_answer`. -/
inductive Phase where
  | idle
  | awaitingRecipe
deriving DecidableEq, Repr

/-- Per-user session: the FSM state plus the stored `current_dish_name`
datum (absent or `None` both read back as `none` via `data.get`). -/
structure Session where
  phase : Phase
  currentDishName : Option String
deriving DecidableEq, Repr

/-- `state.clear()`: reset to idle with no stored data. -/
def Session.cleared : Session := { phase := Phase.idle, currentDishName := none }

/-- Python truthiness of an optional string: `None` and `""` are falsy. -/
def pyTruthy : Option String → Bool
  | none => false
  | some s => !(s = "")

/-- Python `x or default` for an optional string `x`. -/
def pyOrElse (x : Option String) (dflt : String) : String :=
  if pyTruthy x then x.getD dflt else dflt

/-- Interpolation of an optional value into an f-string: `None` prints as
the literal text `None`. -/
def pyShow : Option String → String
  | none => "None"
  | some s => s

/-- Drop leading and trailing whitespace characters from a character list. -/
def stripChars (l : List Char) : List Char :=
  ((l.dropWhile Char.isWhitespace).reverse.dropWhile Char.isWhitespace).reverse

/-- Python `str.strip()`: remove leading and trailing whitespace. -/
def pyStrip (s : String) : String := String.mk (stripChars s.data)

/-- Arguments of one grading invocation (the five parameters of
`evaluate_answer_with_model`). -/
structure EvalRequest where
  dish_name : String
  official_recipe : String
  user_recipe : String
  price : String
  weight : String
deriving DecidableEq, Repr

/-- Severity of a log record. -/
inductive LogLevel where
  | debug
  | info
  | warning
  | error
deriving DecidableEq, Repr

/-- A log record, identified by its severity and constant format string
(interpolated arguments elided). -/
structure LogEntry where
  level : LogLevel
  msg : String
deriving DecidableEq, Repr

/-- An outgoing chat message: `message.answer` or `message.answer_photo`.
`keyboard` records the `MAIN_KEYBOARD` reply markup; `markdown` records
`parse_mode=ParseMode.MARKDOWN` on photo messages. -/
inductive Outgoing where
  | text (body : String) (keyboard : Bool)
  | photo (url : String) (caption : String) (keyboard : Bool) (markdown : Bool)
deriving DecidableEq, Repr

/-- Observable outcome of handling one inbound message: the messages sent,
the session left behind, and the grading request made (if any). -/
structure StepResult where
  outgoing : List Outgoing
  session : Session
  request : Option EvalRequest
deriving DecidableEq, Repr

/-- `evaluate_answer_with_model`: guard on the uninitialized client, one
backend call, exception fallback to the fixed apology, else
`(content or "").strip()`.  Returns the result text and the log records
emitted.  The function is total: no failure of the oracle escapes it. -/
def evaluate_answer_with_model (req : EvalRequest) (clientInit : Bool)
    (backend : Except Unit (Option String)) : String × List LogEntry :=
  if !clientInit then
    (unavailableText, [⟨LogLevel.error, "OpenAI client is not initialized"⟩])
  else
    let pre : List LogEntry :=
      [⟨LogLevel.info, "Sending evaluation request to OpenAI for dish"⟩,
       ⟨LogLevel.debug, "User recipe preview"⟩]
    match backend with
    | Except.error _ =>
        (apologyText, pre ++ [⟨LogLevel.error, "OpenAI evaluation failed"⟩])
    | Except.ok content =>
        (pyStrip (content.getD ""),
         pre ++ [⟨LogLevel.debug, "OpenAI evaluation response"⟩])

/-- First catalog entry whose `name` equals the queried string:
`next((d for d in RECIPES if d.get("name") == dish_name), None)`.
A record whose `name` key is absent or null never matches. -/
def findByName (l : List Dish) (nm : String) : Option Dish :=
  match l with
  | [] => none
  | d :: rest => if d.name = some nm then some d else findByName rest nm

/-- The dish-resolution step of `handle_answer`: `dish = None;
if dish_name: dish = next(..., None)`. -/
def lookupPending (recipes : List Dish) (dishName : Option String) : Option Dish :=
  if pyTruthy dishName then findByName recipes (dishName.getD "") else none

/-- `handle_answer`: send the acknowledgement, resolve the pending dish,
either fall back (dish missing) or grade and render, and clear the session
in both branches. -/
def handle_answer (recipes : List Dish) (sess : Session) (msgText : Option String)
    (clientInit : Bool) (backend : Except Unit (Option String)) : StepResult :=
  let checking := Outgoing.text checkingText true
  match lookupPending recipes sess.currentDishName with
  | none =>
      { outgoing := [checking, Outgoing.text fallbackText true],
        session := Session.cleared,
        request := none }
  | some dish =>
      let req : EvalRequest :=
        { dish_name := dish.name.getD "Неизвестное блюдо",
          official_recipe := pyOrElse dish.recipe recipePlaceholder,
          user_recipe := msgText.getD "",
          price := dish.price.getD "Неизвестная цена",
          weight := dish.weight.getD "Неизвестный вес" }
      let evaluation := (evaluate_answer_with_model req clientInit backend).1
      let rendered :=
        if pyTruthy dish.image_url then
          Outgoing.photo (dish.image_url.getD "") evaluation true true
        else
          Outgoing.text evaluation true
      { outgoing := [checking, rendered],
        session := Session.cleared,
        request := some req }

/-- `handle_try_next`: pick the dish at the random index, store its name,
enter the waiting state, and prompt the user.  `pick : Fin recipes.length`
models `random.choice` over the (non-empty) catalog. -/
def handle_try_next (recipes : List Dish) (pick : Fin recipes.length)
    (_sess : Session) : StepResult :=
  let dish := recipes.get pick
  { outgoing := [Outgoing.text
      ("Блюдо: " ++ pyShow dish.name ++ "\n\nПожалуйста, напиши его рецепт.") true],
    session := { phase := Phase.awaitingRecipe, currentDishName := dish.name },
    request := none }

/-- `start_handler`: greet; no state change, no grading. -/
def start_handler (sess : Session) : StepResult :=
  { outgoing := [Outgoing.text greetingText true],
    session := sess,
    request := none }

/-- The aiogram `CommandStart()` filter: the first space-separated token of
the text is `/start`, optionally with a bot mention. -/
def isCommandStart : Option String → Bool
  | none => false
  | some s =>
      let tok := s.data.takeWhile (fun c => !(c = ' '))
      tok == "/start".data || "/start@".data.isPrefixOf tok

/-- One dispatch round of the aiogram `Dispatcher` for a single inbound
message, in handler registration order: `CommandStart()` first, then
`F.text == TRY_NEXT_BUTTON_TEXT`, then the `waiting_for_answer` state
filter; an unmatched message is ignored. -/
def step (recipes : List Dish) (pick : Fin recipes.length) (sess : Session)
    (msgText : Option String) (clientInit : Bool)
    (backend : Except Unit (Option String)) : StepResult :=
  if isCommandStart msgText then
    start_handler sess
  else if msgText = some TRY_NEXT_BUTTON_TEXT then
    handle_try_next recipes pick sess
  else if sess.phase = Phase.awaitingRecipe then
    handle_answer recipes sess msgText clientInit backend
  else
    { outgoing := [], session := sess, request := none }

/-- A JSON value, as produced by `json.load`. -/
inductive JValue where
  | null
  | bool (b : Bool)
  | num (n : Int)
  | str (s : String)
  | arr (l : List JValue)
  | obj (fields : List (String × JValue))

/-- Catalog loading at module import (`main.py` lines 26-30):
`src = none` models an unopenable or unparseable `recipes.json` (the open
or `json.load` raises); otherwise the parsed value must be a non-empty
JSON list or a `RuntimeError` is raised. -/
def loadCatalog (src : Option JValue) : Except String (List JValue) :=
  match src with
  | none => Except.error "failed to open or parse recipes.json"
  | some (JValue.arr []) =>
      Except.error "recipes.json must contain a non-empty list of recipes"
  | some (JValue.arr (x :: rest)) => Except.ok (x :: rest)
  | some _ =>
      Except.error "recipes.json must contain a non-empty list of recipes"

/-- Both branches of `handle_answer` end with `state.clear()`. -/
theorem handle_answer_session_cleared (recipes : List Dish) (sess : Session)
    (msgText : Option String) (clientInit : Bool)
    (backend : Except Unit (Option String)) :
    (handle_answer recipes sess msgText clientInit backend).session =
      Session.cleared := by
  unfold handle_answer
  cases lookupPending recipes sess.currentDishName <;> rfl

/-- Claim C1: a free-text submission (neither the start command nor the
"next dish" button label) handled while the session phase is
AwaitingRecipe always ends with the session reset to Idle with the
pending dish name cleared, for every backend outcome, client state and
catalog (whether or not the pending dish resolves). -/
theorem answer_round_resets_session (recipes : List Dish)
    (pick : Fin recipes.length) (sess : Session) (msgText : Option String)
    (clientInit : Bool) (backend : Except Unit (Option String))
    (hphase : sess.phase = Phase.awaitingRecipe)
    (hstart : isCommandStart msgText = false)
    (hbtn : msgText ≠ some TRY_NEXT_BUTTON_TEXT) :
    (step recipes pick sess msgText clientInit backend).session =
      Session.cleared := by
  simp [step, hstart, hbtn, hphase, handle_answer_session_cleared]

/-- Concrete instance of C1: answering while awaiting "Борщ" with a failing
backend still resets the session. -/
theorem answer_round_resets_session_witness :
    (step [⟨some "Борщ", some "свёкла, капуста", none, none, none⟩]
      ⟨0, by decide⟩
      { phase := Phase.awaitingRecipe, currentDishName := some "Борщ" }
      (some "свёкла и картошка") true (Except.error ())).session =
      Session.cleared :=
  answer_round_resets_session _ _ _ _ _ _ rfl (by decide) (by decide)

/-- Claim C2: whenever the backend call raises (any exception), the
evaluation function returns the fixed apology string and logs the failure;
being a total function of the backend oracle, it propagates no exception. -/
theorem evaluate_failure_returns_apology (req : EvalRequest) (e : Unit) :
    (evaluate_answer_with_model req true (Except.error e)).1 = apologyText ∧
    (⟨LogLevel.error, "OpenAI evaluation failed"⟩ : LogEntry) ∈
      (evaluate_answer_with_model req true (Except.error e)).2 := by
  constructor
  · rfl
  · simp [evaluate_answer_with_model]

/-- Concrete instance of C2. -/
theorem evaluate_failure_returns_apology_witness :
    (evaluate_answer_with_model ⟨"Борщ", "свёкла", "вода", "100", "200г"⟩
      true (Except.error ())).1 = apologyText :=
  (evaluate_failure_returns_apology ⟨"Борщ", "свёкла", "вода", "100", "200г"⟩ ()).1

/-- Claim C3: when the pending dish name does not resolve in the catalog
(or is absent or empty), `handle_answer` sends the fixed fallback message,
clears the session to Idle and makes no grading request; it is total, so
it cannot crash. -/
theorem missing_dish_fallback (recipes : List Dish) (sess : Session)
    (msgText : Option String) (clientInit : Bool)
    (backend : Except Unit (Option String))
    (hmiss : lookupPending recipes sess.currentDishName = none) :
    handle_answer recipes sess msgText clientInit backend =
      { outgoing := [Outgoing.text checkingText true,
                     Outgoing.text fallbackText true],
        session := Session.cleared,
        request := none } := by
  unfold handle_answer
  rw [hmiss]

/-- Concrete instance of C3: pending dish "Ghost Dish" absent from the
catalog. -/
theorem missing_dish_fallback_witness :
    handle_answer [⟨some "Borscht", some "beets, cabbage, potato", none, none, none⟩]
      { phase := Phase.awaitingRecipe, currentDishName := some "Ghost Dish" }
      (some "some answer") true (Except.ok (some "ok")) =
      { outgoing := [Outgoing.text checkingText true,
                     Outgoing.text fallbackText true],
        session := Session.cleared,
        request := none } :=
  missing_dish_fallback _ _ _ _ _ (by decide)

/-- Claim C4: after every "next dish" press, from any prior session state,
the phase is AwaitingRecipe and the stored pending dish name equals the
name of the dish just picked (any previous pending dish is overwritten;
the handler is total, so no error occurs). -/
theorem try_next_sets_awaiting (recipes : List Dish)
    (pick : Fin recipes.length) (sess : Session) :
    (handle_try_next recipes pick sess).session.phase = Phase.awaitingRecipe ∧
    (handle_try_next recipes pick sess).session.currentDishName =
      (recipes.get pick).name :=
  ⟨rfl, rfl⟩

/-- Concrete instance of C4: pressing "next dish" while already awaiting
another dish overwrites the pending name. -/
theorem try_next_sets_awaiting_witness :
    (handle_try_next [⟨some "Плов", none, none, none, none⟩] ⟨0, by decide⟩
      { phase := Phase.awaitingRecipe,
        currentDishName := some "Борщ" }).session.phase = Phase.awaitingRecipe ∧
    (handle_try_next [⟨some "Плов", none, none, none, none⟩] ⟨0, by decide⟩
      { phase := Phase.awaitingRecipe,
        currentDishName := some "Борщ" }).session.currentDishName = some "Плов" :=
  try_next_sets_awaiting _ _ _

/-- Claim C5: on a successful backend response the evaluation function
returns the content with leading and trailing whitespace trimmed; a null
content field or an all-whitespace content yields the empty string, not an
apology substitute. -/
theorem evaluate_success_trims (req : EvalRequest) (content : Option String) :
    (evaluate_answer_with_model req true (Except.ok content)).1 =
      pyStrip (content.getD "") ∧
    (content = none →
      (evaluate_answer_with_model req true (Except.ok content)).1 = "") ∧
    (pyStrip (content.getD "") = "" →
      (evaluate_answer_with_model req true (Except.ok content)).1 = "") := by
  refine ⟨rfl, ?_, ?_⟩
  · rintro rfl; rfl
  · intro h; rw [← h]; rfl

/-- Concrete instance of C5: surrounding whitespace is stripped, and an
all-whitespace response passes through as the empty string. -/
theorem evaluate_success_trims_witness :
    (evaluate_answer_with_model ⟨"a", "b", "c", "d", "e"⟩ true
      (Except.ok (some "  Close match. Score: 8/10  "))).1 =
      "Close match. Score: 8/10" :=
  (evaluate_success_trims ⟨"a", "b", "c", "d", "e"⟩
    (some "  Close match. Score: 8/10  ")).1.trans (by decide)

/-- Claim C6: for every queried name and every catalog, including catalogs
with duplicate names, `findByName` returns the first record in catalog
order whose name exactly equals the queried string, and none when no
record matches. -/
theorem findByName_first_match (l : List Dish) (nm : String) :
    (∀ d, findByName l nm = some d ↔
      ∃ l₁ l₂, l = l₁ ++ d :: l₂ ∧ d.name = some nm ∧
        ∀ x ∈ l₁, x.name ≠ some nm) ∧
    (findByName l nm = none ↔ ∀ x ∈ l, x.name ≠ some nm) := by
  induction l with
  | nil =>
      refine ⟨fun d => ⟨fun h => by simp [findByName] at h, ?_⟩, by simp [findByName]⟩
      rintro ⟨l₁, l₂, h, -, -⟩
      exact absurd h (by cases l₁ <;> simp)
  | cons a rest ih =>
      by_cases ha : a.name = some nm
      · refine ⟨fun d => ⟨fun h => ?_, ?_⟩, ⟨fun h => ?_, fun h => ?_⟩⟩
        · simp [findByName, ha] at h
          exact ⟨[], rest, by simp [h], h ▸ ha, by simp⟩
        · rintro ⟨l₁, l₂, heq, hd, hnone⟩
          cases l₁ with
          | nil =>
              simp at heq
              obtain ⟨h1, h2⟩ := heq
              subst h1
              simp [findByName, ha]
          | cons b l₁ =>
              simp at heq
              exact absurd (heq.1 ▸ ha) (hnone b (by simp))
        · simp [findByName, ha] at h
        · exact absurd ha (h a (by simp))
      · have hstep : findByName (a :: rest) nm = findByName rest nm := by
          simp [findByName, ha]
        refine ⟨fun d => ?_, ?_⟩
        · rw [hstep]
          constructor
          · intro h
            obtain ⟨l₁, l₂, heq, hd, hnone⟩ := (ih.1 d).mp h
            refine ⟨a :: l₁, l₂, by simp [heq], hd, ?_⟩
            intro x hx
            rcases List.mem_cons.mp hx with rfl | hx
            · exact ha
            · exact hnone x hx
          · rintro ⟨l₁, l₂, heq, hd, hnone⟩
            cases l₁ with
            | nil =>
                simp at heq
                exact absurd (heq.1 ▸ hd) ha
            | cons b l₁ =>
                simp at heq
                exact (ih.1 d).mpr
                  ⟨l₁, l₂, heq.2, hd, fun x hx => hnone x (by simp [hx])⟩
        · rw [hstep]
          constructor
          · intro h x hx
            rcases List.mem_cons.mp hx with rfl | hx
            · exact ha
            · exact (ih.2.mp h) x hx
          · intro h
            exact ih.2.mpr fun x hx => h x (by simp [hx])

/-- Concrete instance of C6: with two records named "Борщ", the first one
in catalog order wins. -/
theorem findByName_first_match_witness :
    findByName
      [⟨some "Борщ", some "рецепт 1", none, none, none⟩,
       ⟨some "Плов", none, none, none, none⟩,
       ⟨some "Борщ", some "рецепт 2", none, none, none⟩] "Борщ" =
      some ⟨some "Борщ", some "рецепт 1", none, none, none⟩ :=
  ((findByName_first_match _ "Борщ").1 _).mpr ⟨[], _, rfl, rfl, by simp⟩

/-- Claim C7: when the pending dish resolves, the outgoing evaluation
message is an image message (with the evaluation text as caption, with
markdown parse mode) exactly when the dish has a truthy image reference,
and a plain text message whose body is the evaluation text otherwise; in
both cases it carries the persistent "next dish" keyboard. -/
theorem render_image_or_text (recipes : List Dish) (sess : Session)
    (msgText : Option String) (clientInit : Bool)
    (backend : Except Unit (Option String)) (d : Dish)
    (hd : lookupPending recipes sess.currentDishName = some d) :
    ∃ req,
      (handle_answer recipes sess msgText clientInit backend).request =
        some req ∧
      (handle_answer recipes sess msgText clientInit backend).outgoing =
        [Outgoing.text checkingText true,
         if pyTruthy d.image_url then
           Outgoing.photo (d.image_url.getD "")
             (evaluate_answer_with_model req clientInit backend).1 true true
         else
           Outgoing.text
             (evaluate_answer_with_model req clientInit backend).1 true] := by
  unfold handle_answer
  rw [hd]
  exact ⟨_, rfl, rfl⟩

/-- Concrete instance of C7: a dish with an image produces a photo message
whose caption is the evaluation text. -/
theorem render_image_or_text_witness :
    ∃ req,
      (handle_answer
        [⟨some "Борщ", some "свёкла", some "550", some "300г",
          some "https://img.example/borscht.png"⟩]
        { phase := Phase.awaitingRecipe, currentDishName := some "Борщ" }
        (some "свёкла и вода") true (Except.ok (some "Неплохо. 7/10"))).request =
        some req ∧
      (handle_answer
        [⟨some "Борщ", some "свёкла", some "550", some "300г",
          some "https://img.example/borscht.png"⟩]
        { phase := Phase.awaitingRecipe, currentDishName := some "Борщ" }
        (some "свёкла и вода") true (Except.ok (some "Неплохо. 7/10"))).outgoing =
        [Outgoing.text checkingText true,
         if pyTruthy (some "https://img.example/borscht.png") then
           Outgoing.photo ((some "https://img.example/borscht.png").getD "")
             (evaluate_answer_with_model req true
               (Except.ok (some "Неплохо. 7/10"))).1 true true
         else
           Outgoing.text
             (evaluate_answer_with_model req true
               (Except.ok (some "Неплохо. 7/10"))).1 true] :=
  render_image_or_text
    [⟨some "Борщ", some "свёкла", some "550", some "300г",
      some "https://img.example/borscht.png"⟩]
    { phase := Phase.awaitingRecipe, currentDishName := some "Борщ" }
    (some "свёкла и вода") true (Except.ok (some "Неплохо. 7/10"))
    ⟨some "Борщ", some "свёкла", some "550", some "300г",
      some "https://img.example/borscht.png"⟩
    (by decide)

/-- Claim C8: any message that is not the "next dish" button label,
arriving while the session phase is Idle, leaves the session unchanged and
makes no grading request. -/
theorem idle_free_text_noop (recipes : List Dish) (pick : Fin recipes.length)
    (sess : Session) (msgText : Option String) (clientInit : Bool)
    (backend : Except Unit (Option String))
    (hphase : sess.phase = Phase.idle)
    (hbtn : msgText ≠ some TRY_NEXT_BUTTON_TEXT) :
    (step recipes pick sess msgText clientInit backend).session = sess ∧
    (step recipes pick sess msgText clientInit backend).request = none := by
  by_cases hstart : isCommandStart msgText
  · simp [step, hstart, start_handler]
  · simp [step, hstart, hbtn, hphase, start_handler]

/-- Concrete instance of C8: answering with free text while Idle is a
no-op. -/
theorem idle_free_text_noop_witness :
    (step [⟨some "Борщ", none, none, none, none⟩] ⟨0, by decide⟩
      { phase := Phase.idle, currentDishName := none }
      (some "привет") true (Except.ok (some " answer"))).session =
      { phase := Phase.idle, currentDishName := none } ∧
    (step [⟨some "Борщ", none, none, none, none⟩] ⟨0, by decide⟩
      { phase := Phase.idle, currentDishName := none }
      (some "привет") true (Except.ok (some "answer"))).request = none :=
  ⟨(idle_free_text_noop _ _ _ _ _ _ rfl (by decide)).1,
   (idle_free_text_noop _ _ _ _ _ _ rfl (by decide)).2⟩

/-- Claim C9: catalog loading succeeds exactly on a parseable source whose
value is a non-empty JSON list (and then returns that non-empty list); a
missing or unparseable source, a non-list value, or an empty list is a
fatal startup error. -/
theorem loadCatalog_fatal_or_nonempty (src : Option JValue) :
    (∀ l, loadCatalog src = Except.ok l ↔
      src = some (JValue.arr l) ∧ l ≠ []) ∧
    ((src = none ∨ src = some (JValue.arr []) ∨
        ∀ l, src ≠ some (JValue.arr l)) →
      ∃ msg, loadCatalog src = Except.error msg) := by
  constructor
  · intro l
    constructor
    · intro h
      cases src with
      | none => simp [loadCatalog] at h
      | some v =>
          cases v with
          | null => simp [loadCatalog] at h
          | bool b => simp [loadCatalog] at h
          | num n => simp [loadCatalog] at h
          | str s => simp [loadCatalog] at h
          | obj fields => simp [loadCatalog] at h
          | arr a =>
              cases a with
              | nil => simp [loadCatalog] at h
              | cons x rest =>
                  simp [loadCatalog] at h
                  subst h
                  exact ⟨rfl, by simp⟩
    · rintro ⟨rfl, hne⟩
      cases l with
      | nil => exact absurd rfl hne
      | cons x rest => rfl
  · intro h
    rcases h with rfl | rfl | hall
    · exact ⟨_, rfl⟩
    · exact ⟨_, rfl⟩
    · cases src with
      | none => exact ⟨_, rfl⟩
      | some v =>
          cases v with
          | null => exact ⟨_, rfl⟩
          | bool b => exact ⟨_, rfl⟩
          | num n => exact ⟨_, rfl⟩
          | str s => exact ⟨_, rfl⟩
          | obj fields => exact ⟨_, rfl⟩
          | arr a => exact absurd rfl (hall a)

/-- Concrete instance of C9: a singleton list loads; an empty list is a
fatal error. -/
theorem loadCatalog_fatal_or_nonempty_witness :
    loadCatalog (some (JValue.arr [JValue.obj [("name", JValue.str "Борщ")]])) =
      Except.ok [JValue.obj [("name", JValue.str "Борщ")]] ∧
    ∃ msg, loadCatalog (some (JValue.arr [])) = Except.error msg :=
  ⟨((loadCatalog_fatal_or_nonempty _).1 _).mpr ⟨rfl, by simp⟩,
   (loadCatalog_fatal_or_nonempty _).2 (Or.inr (Or.inl rfl))⟩

/-- Claim C10: a message with no text payload, arriving while the pending
dish resolves, is graded (a request is made) with the user-recipe field
equal to the empty string; and when the resolved dish's reference recipe
is absent or empty, the request's official-recipe field is the fixed
placeholder. -/
theorem nontext_graded_as_empty (recipes : List Dish) (sess : Session)
    (clientInit : Bool) (backend : Except Unit (Option String)) (d : Dish)
    (hd : lookupPending recipes sess.currentDishName = some d) :
    ∃ req,
      (handle_answer recipes sess none clientInit backend).request = some req ∧
      req.user_recipe = "" ∧
      ((d.recipe = none ∨ d.recipe = some "") →
        req.official_recipe = recipePlaceholder) := by
  unfold handle_answer
  rw [hd]
  refine ⟨_, rfl, rfl, ?_⟩
  rintro (h | h) <;> simp [pyOrElse, pyTruthy, h]

/-- Concrete instance of C10: a photo-only submission for a dish with an
empty recipe is graded with empty user text against the placeholder. -/
theorem nontext_graded_as_empty_witness :
    ∃ req,
      (handle_answer [⟨some "Плов", some "", none, none, none⟩]
        { phase := Phase.awaitingRecipe, currentDishName := some "Плов" }
        none true (Except.ok (some "ok"))).request = some req ∧
      req.user_recipe = "" ∧
      (((⟨some "Плов", some "", none, none, none⟩ : Dish).recipe = none ∨
        (⟨some "Плов", some "", none, none, none⟩ : Dish).recipe = some "") →
        req.official_recipe = recipePlaceholder) :=
  nontext_graded_as_empty _ _ _ _ _ (by decide)

end RecipesBot
